import Mathlib

/-!
Verification development for the ink2md conversion orchestration engine
(`conversion_pipeline.py`, `app.py`, `ai_services/factory.py`,
`ai_services/base.py`, `prompt_manager.py`, `database.py`, `models.py`).

The Python code is shallowly embedded: pure fragments become Lean
functions, stateful fragments thread explicit state, a Python call that
may raise is modelled by `CallOutcome`, and the external world seen by
one conversion attempt (document opening, baseline extraction, AI
provider calls, database write success) is packaged in an environment
record.  Python strings are Lean `String`s (lists of characters), and
Python truthiness of optional strings is modelled explicitly.
-/

namespace Ink2MD

/-- Outcome of a Python call that may raise: either an exception carrying
its stringified message (`str(e)`), or a returned value. -/
inductive CallOutcome (α : Type) where
  | raises (msg : String)
  | returns (val : α)
  deriving Repr, DecidableEq

/-- Python truthiness of an optional string: `None` and `""` are falsy,
every other string is truthy. -/
def pyTruthy : Option String → Bool
  | none => false
  | some s => s != ""

/-- Python `s.lower()` on the character sequence (ASCII case folding;
the embedded keyword and type-name comparisons are all ASCII). -/
def pyLower (s : String) : String :=
  ⟨s.data.map Char.toLower⟩

/-- Characters stripped by Python `str.strip()` with no argument
(ASCII whitespace; the rare non-ASCII Unicode spaces are out of scope of
the strings handled here). -/
def isPySpace (c : Char) : Bool :=
  c = ' ' || c = '\t' || c = '\n' || c = '\r' || c = '\x0b' || c = '\x0c'

/-- Python `s.strip()`: drop leading and trailing whitespace. -/
def pyStrip (s : String) : String :=
  ⟨((s.data.dropWhile isPySpace).reverse.dropWhile isPySpace).reverse⟩

/-- Worker for `replaceAll`, structurally recursive on a fuel counter.
Each step consumes at least one character of `s`, so `s.length` units of
fuel always suffice; when fuel runs out the remainder is returned as is. -/
def replaceAllAux (old new : List Char) : Nat → List Char → List Char
  | 0, s => s
  | fuel + 1, s =>
    match s with
    | [] => []
    | c :: cs =>
      if old ≠ [] ∧ old.isPrefixOf (c :: cs) then
        new ++ replaceAllAux old new fuel ((c :: cs).drop old.length)
      else
        c :: replaceAllAux old new fuel cs

/-- Python `s.replace(old, new)` on character lists for a non-empty `old`:
scan left to right, replacing each non-overlapping occurrence of `old` by
`new`.  (For `old = []` this returns `s` unchanged; the Python
empty-pattern corner case is never exercised by the embedded code, whose
patterns are the non-empty literal tokens below.) -/
def replaceAll (s old new : List Char) : List Char :=
  replaceAllAux old new s.length s

/-- Whether `old` occurs as a contiguous substring of `s`
(Python `old in s`). -/
def occursIn (old : List Char) : List Char → Bool
  | [] => old.isEmpty
  | c :: cs => old.isPrefixOf (c :: cs) || occursIn old cs

/-- Index of the last occurrence of character `c` in `s`, if any
(Python `s.rfind(c)` restricted to single-character needles). -/
def lastIndexOf (c : Char) (s : List Char) : Option Nat :=
  ((List.range s.length).filter (fun i => s.getD i ' ' == c)).getLast?

/-- Root part of Python `os.path.splitext` (posix): split off the
extension at the last dot that comes after the last path separator and
after at least one non-dot character; otherwise return the whole name
(so dotless names and purely-dot-prefixed names such as `.bashrc` keep
their full text). -/
def pySplitextRoot (s : List Char) : List Char :=
  let sepIdx : Int := match lastIndexOf '/' s with
    | none => -1
    | some i => (i : Int)
  match lastIndexOf '.' s with
  | none => s
  | some d =>
    if (d : Int) > sepIdx then
      let start : Nat := (sepIdx + 1).toNat
      if (List.range' start (d - start)).any (fun i => s.getD i ' ' != '.') then
        s.take d
      else s
    else s

/-- The literal date token recognised in output patterns
(conversion_pipeline.py:160). -/
def dateToken : List Char := "YYYY-MM-DD".data

/-- The literal original-file-name token recognised in output patterns
(conversion_pipeline.py:160). -/
def fileToken : List Char := "[OriginalFileName]".data

/-- Output file naming (conversion_pipeline.py:157-160):
`output_pattern.replace('YYYY-MM-DD', timestamp).replace('[OriginalFileName]', base)`
where `base = os.path.splitext(filename)[0]` and `timestamp` is the
current date rendered as `%Y-%m-%d` (passed in here as `today`). -/
def computeOutputFilename (outputPattern today filename : String) : String :=
  ⟨replaceAll (replaceAll outputPattern.data dateToken today.data)
      fileToken (pySplitextRoot filename.data)⟩

/-! ## AI service capabilities and the service factory
(ai_services/base.py, ai_services/factory.py) -/

/-- The `AIServiceCapability` enum (ai_services/base.py:30-36). -/
inductive Capability where
  | htr | formatting | layoutAnalysis | vlmDirect | documentIntelligence
  deriving Repr, DecidableEq

/-- The argument actually passed to `supports_capability` in the Python
code: usually an `AIServiceCapability` enum member, but at
conversion_pipeline.py:301 the plain string `'vlm_direct'`. -/
inductive CapabilityArg where
  | cap (c : Capability)
  | str (s : String)

/-- Python `capability in self.get_capabilities()`
(ai_services/base.py:195), where the list holds only
`AIServiceCapability` enum members.  A plain `Enum` member never compares
equal to a `str` under Python `==` (both sides return `NotImplemented`
and the fallback identity test fails), so membership of a string argument
in a list of enum members is always `False`. -/
def capabilityMem : CapabilityArg → List Capability → Bool
  | .cap c, caps => caps.contains c
  | .str _, _ => false

/-- A provider configuration dictionary as consumed by the factory.
String-valued keys that may be absent are modelled as `""` when absent,
matching the code's uniform `not config.get(field)` falsiness checks;
`enabled` defaults to `True` (ai_services/base.py:57). -/
structure ServiceConfig where
  typeName : String := ""
  displayName : String := ""
  apiKey : String := ""
  apiBaseUrl : String := ""
  modelName : String := ""
  isHtrCapable : Bool := false
  isFormattingCapable : Bool := false
  isLayoutCapable : Bool := false
  isVlmCapable : Bool := false
  isDocumentIntelligenceCapable : Bool := false
  enabled : Bool := true
  deriving Repr, DecidableEq

/-- `get_capabilities` (ai_services/base.py:162-183): the capabilities a
configuration declares, in the order the code appends them. -/
def ServiceConfig.declaredCaps (c : ServiceConfig) : List Capability :=
  (if c.isHtrCapable then [Capability.htr] else []) ++
  (if c.isFormattingCapable then [Capability.formatting] else []) ++
  (if c.isLayoutCapable then [Capability.layoutAnalysis] else []) ++
  (if c.isVlmCapable then [Capability.vlmDirect] else []) ++
  (if c.isDocumentIntelligenceCapable then [Capability.documentIntelligence] else [])

/-- `validate_service_config` (ai_services/base.py:322-361), reduced to
whether the returned error dictionary is empty. -/
def validateServiceConfigOk (c : ServiceConfig) : Bool :=
  c.displayName != "" && c.typeName != "" &&
  (if (pyLower c.typeName) = "anthropic" then
      c.apiKey != "" && c.modelName != "" else true) &&
  (if (pyLower c.typeName) = "ollama" then
      c.apiBaseUrl != "" && c.modelName != "" else true) &&
  (c.isHtrCapable || c.isFormattingCapable)

/-- A constructed `AIServiceInterface` instance (ai_services/base.py:46-63):
the resolved display name (`config.get('display_name', provider_id)`),
the enabled flag and the originating configuration. -/
structure Service where
  providerId : String
  displayName : String
  enabled : Bool
  cfg : ServiceConfig
  deriving Repr, DecidableEq

/-- `get_capabilities` on a service instance (ai_services/base.py:162). -/
def Service.capabilities (s : Service) : List Capability :=
  s.cfg.declaredCaps

/-- `supports_capability` (ai_services/base.py:185-195). -/
def Service.supportsCapabilityArg (s : Service) (a : CapabilityArg) : Bool :=
  capabilityMem a s.capabilities

/-- The instance method `validate_config`
(ai_services/base.py:218-236), reduced to whether the error dictionary is
empty. -/
def Service.validateConfigOk (s : Service) : Bool :=
  s.providerId != "" && s.displayName != "" &&
  (s.cfg.isHtrCapable || s.cfg.isFormattingCapable)

/-- `create_service_from_config` (ai_services/base.py:363-395): validate
the configuration (raising `ValueError` on any error), then dispatch on
the service type, raising on an unknown type. -/
def createServiceFromConfig (pid : String) (c : ServiceConfig) :
    CallOutcome Service :=
  if ¬ validateServiceConfigOk c then
    .raises "Invalid service configuration"
  else if (pyLower c.typeName) = "mock" ∨ (pyLower c.typeName) = "anthropic" ∨
      (pyLower c.typeName) = "ollama" then
    .returns { providerId := pid,
               displayName := if c.displayName != "" then c.displayName else pid,
               enabled := c.enabled,
               cfg := c }
  else
    .raises "Unknown service type"

/-- The factory's `_services` dictionary, as an insertion-ordered
association list with Python-dict assignment semantics. -/
structure Factory where
  services : List (String × Service)
  deriving Repr, DecidableEq

/-- Python dict assignment `d[k] = v`: replace in place if the key is
present (keeping its position), otherwise append. -/
def dictInsert (k : String) (v : Service) (d : List (String × Service)) :
    List (String × Service) :=
  if d.any (fun p => p.1 == k) then
    d.map (fun p => if p.1 == k then (k, v) else p)
  else d ++ [(k, v)]

/-- `register_service` (ai_services/factory.py:50-86): check the type is
a known `SERVICE_TYPES` key, build the service (exceptions caught,
returning `False`), run the instance validation, then store.  Returns the
updated factory and the boolean result. -/
def registerService (f : Factory) (pid : String) (c : ServiceConfig) :
    Factory × Bool :=
  if ¬ ((pyLower c.typeName) = "anthropic" ∨ (pyLower c.typeName) = "ollama" ∨
      (pyLower c.typeName) = "mock") then
    (f, false)
  else
    match createServiceFromConfig pid c with
    | .raises _ => (f, false)
    | .returns svc =>
      if ¬ svc.validateConfigOk then (f, false)
      else ({ services := dictInsert pid svc f.services }, true)

/-- `get_services_by_capability` (ai_services/factory.py:119-132): the
registered services supporting the capability, restricted to enabled
ones. -/
def getServicesByCapability (f : Factory) (c : Capability) : List Service :=
  (f.services.map Prod.snd).filter
    (fun s => s.supportsCapabilityArg (.cap c) && s.enabled)

/-- Whether some service registered under `pid` appears in the
capability list for `c`. -/
def appearsByCapability (f : Factory) (pid : String) (c : Capability) : Bool :=
  (getServicesByCapability f c).any (fun s => s.providerId == pid)

/-! ## Prompt templates (prompt_manager.py) -/

/-- A segment of a template's content: literal text or a `\x7bvariable\x7d`
placeholder.  This structured form corresponds exactly to the content
strings handled by `PromptTemplate` (placeholders are `\x7bword\x7d` spans,
recovered by the `_extract_variables` regex). -/
inductive Seg where
  | lit (s : String)
  | var (v : String)
  deriving Repr, DecidableEq

/-- Template content: an alternation of literal and placeholder
segments. -/
abbrev TemplateContent := List Seg

/-- The raw content string of a template (what `self.content` holds):
placeholders rendered back as brace-delimited spans. -/
def renderRaw (t : TemplateContent) : String :=
  t.foldl (fun acc seg =>
    acc ++ match seg with
      | .lit s => s
      | .var v => "\x7b" ++ v ++ "\x7d") ""

/-- Lookup of a variable in the keyword-argument dictionary. -/
def lookupVar (vars : List (String × String)) (v : String) : Option String :=
  (vars.find? (fun p => p.1 == v)).map Prod.snd

/-- Python `content.format(**kwargs)`: the substitution is atomic — if
any placeholder's variable is missing a `KeyError` is raised and nothing
is substituted; otherwise every placeholder is replaced. -/
def pyFormat (t : TemplateContent) (vars : List (String × String)) :
    CallOutcome String :=
  if t.all (fun seg => match seg with
      | .lit _ => true
      | .var v => (lookupVar vars v).isSome) then
    .returns (t.foldl (fun acc seg =>
      acc ++ match seg with
        | .lit s => s
        | .var v => (lookupVar vars v).getD "") "")
  else
    .raises "KeyError"

/-- `PromptTemplate.format` (prompt_manager.py:169-175): try the full
substitution; on `KeyError` log a warning and return the content
unchanged. -/
def templateFormat (t : TemplateContent) (vars : List (String × String)) :
    String :=
  match pyFormat t vars with
  | .returns s => s
  | .raises _ => renderRaw t

/-- `DEFAULT_PROMPT_TEMPLATES['htr_default']` (prompt_manager.py:35-44):
no placeholders. -/
def htrDefaultContent : TemplateContent :=
  [.lit ("Please analyze this image and extract all visible text, including handwritten text.\n\nFocus on:\n- Handwritten notes and annotations\n- Printed text\n- Mathematical equations or formulas\n- Dates, numbers, and measurements\n- Any other textual content\n\nPlease provide the extracted text in a clear, organized format. If the text appears to be structured (like notes, lists, or sections), please maintain that structure in your output.")]

/-- `DEFAULT_PROMPT_TEMPLATES['formatting_clean']`
(prompt_manager.py:79-90): one `\x7bcontent\x7d` placeholder at the end. -/
def formattingCleanContent : TemplateContent :=
  [.lit ("Please format the following text into clean, well-structured markdown.\n\nFocus on:\n- Creating appropriate headings and structure\n- Organizing content logically\n- Formatting lists, emphasis, and other elements properly\n- Improving readability while maintaining the original meaning\n- Using proper markdown syntax\n- Ensuring consistent formatting throughout\n\nText to format:\n"),
   .var "content"]

/-- `DEFAULT_PROMPT_TEMPLATES['vlm_direct']` (prompt_manager.py:119-129):
no placeholders. -/
def vlmDirectContent : TemplateContent :=
  [.lit ("Please convert this document page directly into clean, well-structured markdown.\n\nAnalyze the entire page and:\n- Extract all visible text accurately\n- Preserve the document's structure and hierarchy\n- Format headings, lists, and emphasis appropriately\n- Handle tables, figures, and captions properly\n- Maintain the logical flow of information\n- Use proper markdown syntax throughout\n\nProvide only the markdown content without additional commentary.")]

/-- `_get_fallback_prompt` (prompt_manager.py:307-317): a
category-appropriate default chosen by the name's prefix.  For the
formatting category the default template is rendered with the provided
`content` variable or the `[No content provided]` placeholder; any
exception there would propagate (none can, since the only placeholder is
bound). -/
def getFallbackPrompt (name : String) (vars : List (String × String)) :
    CallOutcome String :=
  if name.startsWith "htr_" then
    .returns (renderRaw htrDefaultContent)
  else if name.startsWith "formatting_" then
    pyFormat formattingCleanContent
      [("content", (lookupVar vars "content").getD "[No content provided]")]
  else if name.startsWith "vlm_" then
    .returns (renderRaw vlmDirectContent)
  else
    .returns "Please process this content appropriately."

/-- The manager's template dictionary (`self.templates`), name to
content. -/
abbrev TemplateStore := List (String × TemplateContent)

/-- Lookup in the template dictionary. -/
def lookupTemplate (store : TemplateStore) (name : String) :
    Option TemplateContent :=
  (store.find? (fun p => p.1 == name)).map Prod.snd

/-- `PromptManager.get_prompt` (prompt_manager.py:289-305): use the named
template when present (its `format` never raises), otherwise fall back to
the category default. -/
def getPrompt (store : TemplateStore) (name : String)
    (vars : List (String × String)) : CallOutcome String :=
  match lookupTemplate store name with
  | none => getFallbackPrompt name vars
  | some t => .returns (templateFormat t vars)

/-- Document type inference from the filename
(conversion_pipeline.py:268-279). -/
def determineDocumentType (filename : String) : String :=
  let f := pyLower filename
  if ["academic", "paper", "journal", "research", "thesis"].any
      (fun k => occursIn k.data f.data) then "academic"
  else if ["note", "notes", "meeting", "memo"].any
      (fun k => occursIn k.data f.data) then "notes"
  else if ["form", "application", "survey"].any
      (fun k => occursIn k.data f.data) then "forms"
  else "clean"

/-! ## The conversion orchestrator (conversion_pipeline.py, database.py)

One conversion attempt is a run of `ConversionPipeline.convert_pdf`
against an environment describing the external collaborators: the
document library, the configuration, the registered AI services and the
record store.  The attempt produces the ordered list of progress
publications (`update_progress` / the progress callback), the final
durable record (when one exists) and either a returned result dictionary
or a re-raised exception. -/

/-- `ConversionStatus` (models.py:29-35) restricted to the values written
by the orchestrator and the retry endpoints. -/
inductive RecStatus where
  | queued | processing | completed | failed | retrying
  deriving Repr, DecidableEq

/-- The durable conversion record fields the orchestrator reads or
writes (database.py `conversion_history` row). -/
structure Record where
  status : RecStatus
  outputFilename : Option String := none
  errorMessage : Option String := none
  retryCount : Nat := 0
  deriving Repr, DecidableEq

/-- `update_conversion_status` (database.py:162-205) applied to the
record when the write succeeds (`dbOk`): the status is always set;
`error_message` is set only when a non-`None` value is passed, and
`output_filename` only when that keyword is passed — other fields are
left untouched.  `none` here means "not passed / passed as None", which
the code treats identically. -/
def dbUpdateStatus (dbOk : Bool) (r : Option Record) (st : RecStatus)
    (errMsg : Option String) (outName : Option String) : Option Record :=
  if dbOk then
    r.map (fun rec =>
      { rec with
        status := st,
        errorMessage := match errMsg with
          | none => rec.errorMessage
          | some m => some m,
        outputFilename := match outName with
          | none => rec.outputFilename
          | some o => some o })
  else r

/-- `increment_retry_count` (database.py:256-280). -/
def dbIncrementRetry (r : Record) : Record :=
  { r with retryCount := r.retryCount + 1 }

/-- One publication to the progress tracker (`update_progress` /
`progress_callback`).  Only the fields consumed by the claims are kept:
the percentage, the stage label, and the `status`/`error` keyword
arguments (the `total_pages`/`filename`/`result` keyword payloads are not
modelled). -/
structure ProgressEvent where
  progress : Nat
  stage : String
  status : Option String := none
  error : Option String := none
  deriving Repr, DecidableEq

/-- The terminal error publication
(conversion_pipeline.py:224-225):
`progress_callback(conversion_id, 0, f'Error: ...', status='error', error=str(e))`. -/
def errorEvent (msg : String) : ProgressEvent :=
  { progress := 0, stage := "Error: " ++ msg,
    status := some "error", error := some msg }

/-- A registered AI service as seen by the pipeline at run time:
`is_available()`, `get_capabilities()`, the outcome of one
`format_markdown` call, and the outcome of `process_with_vlm` per page
index. -/
structure RuntimeService where
  available : Bool
  caps : List Capability
  formatOutcome : CallOutcome String
  vlmPage : Nat → CallOutcome String

/-- The external world of one conversion attempt. -/
structure Env where
  /-- `pymupdf.open(temp_path)` + `len(doc)`: the page count, or a raised
  exception (`DocumentOpenFailed`). -/
  openDoc : CallOutcome Nat
  /-- `os.path.getsize(temp_path)`. -/
  fileSize : Nat
  /-- whether `db_manager.create_conversion_record` succeeds (its failure
  is caught and the conversion proceeds without a durable record). -/
  createOk : Bool
  /-- whether `db_manager.update_conversion_status` writes succeed
  (failures are caught and logged; durability is best-effort). -/
  dbOk : Bool
  /-- `get_setting('active_services.vlm_provider_id')`. -/
  vlmProviderId : Option String
  /-- `get_setting('active_services.formatting_provider_id')`. -/
  formattingProviderId : Option String
  /-- `ai_factory.get_service` (ai_services/factory.py:107-117). -/
  getService : String → Option RuntimeService
  /-- `pymupdf4llm.to_markdown(temp_path)`: the baseline markdown, or a
  raised exception. -/
  toMarkdown : CallOutcome String
  /-- `get_setting('app_settings.default_output_pattern', 'YYYY-MM-DD-[OriginalFileName].md')`,
  already resolved against the default. -/
  outputPattern : String
  /-- `datetime.now().strftime('%Y-%m-%d')`. -/
  today : String
  /-- the uploaded file's original name. -/
  filename : String

/-- `_process_with_vlm` (conversion_pipeline.py:281-374).  Returns the
generated markdown (or `None`) together with the progress events it
published, in order.  The function re-opens the document itself; the
page count seen there is passed in as `totalPages`.  Note the capability
guard at line 301 passes the plain string `'vlm_direct'` to
`supports_capability`. -/
def processWithVlm (env : Env) (totalPages : Nat) :
    Option String × List ProgressEvent :=
  match env.vlmProviderId with
  | none => (none, [])
  | some pid =>
    if pid == "" then (none, [])
    else
      match env.getService pid with
      | none => (none, [])
      | some svc =>
        if ¬ capabilityMem (.str "vlm_direct") svc.caps then (none, [])
        else
          let startEv : ProgressEvent :=
            { progress := 20, stage := "Processing with Vision-Language Model..." }
          let step := fun (acc : List String × List ProgressEvent) (i : Nat) =>
            match svc.vlmPage i with
            | .raises _ => acc
            | .returns page =>
              ((if page != "" then acc.1 ++ [page] else acc.1),
               acc.2 ++ [{ progress := 20 + 60 * (i + 1) / totalPages,
                           stage := "Processed page " ++ toString (i + 1) ++
                             "/" ++ toString totalPages ++ " with VLM" }])
          let pagesAndEvents := (List.range totalPages).foldl step ([], [])
          if pagesAndEvents.1 != [] then
            (some (String.intercalate "\n\n---\n\n" pagesAndEvents.1),
             startEv :: pagesAndEvents.2)
          else
            (none, startEv :: pagesAndEvents.2)

/-- `_enhance_markdown_with_ai` (conversion_pipeline.py:229-266): run the
provider's `format_markdown` (every registered service has the method, so
the `generate_text` fallback is dead); any exception is caught and
yields `None`; an empty or whitespace-only response yields `None`;
otherwise the stripped response. -/
def enhanceMarkdownWithAi (svc : RuntimeService) : Option String :=
  match svc.formatOutcome with
  | .raises _ => none
  | .returns s => if pyStrip s != "" then some (pyStrip s) else none

/-- Step 3 of `convert_pdf` (conversion_pipeline.py:123-152): the AI
formatting pass on the traditional path.  Returns the (possibly
enhanced) markdown and the progress events it published. -/
def aiEnhancementStep (env : Env) (base : String) :
    String × List ProgressEvent :=
  match env.formattingProviderId with
  | none =>
    (base, [{ progress := 85,
              stage := "AI enhancement disabled, using original text" }])
  | some fid =>
    if fid == "" then
      (base, [{ progress := 85,
                stage := "AI enhancement disabled, using original text" }])
    else
      let ev50 : ProgressEvent :=
        { progress := 50, stage := "Enhancing with AI (" ++ fid ++ ")..." }
      match env.getService fid with
      | some svc =>
        if svc.available then
          let ev70 : ProgressEvent :=
            { progress := 70, stage := "Refining markdown formatting with AI..." }
          match enhanceMarkdownWithAi svc with
          | some e =>
            (e, [ev50, ev70, { progress := 85, stage := "AI enhancement complete" }])
          | none =>
            (base, [ev50, ev70,
                    { progress := 85,
                      stage := "AI enhancement skipped (using original)" }])
        else
          (base, [ev50, { progress := 85,
                          stage := "AI service not available, using original text" }])
      | none =>
        (base, [ev50, { progress := 85,
                        stage := "AI service not available, using original text" }])

/-- The result dictionary built at conversion_pipeline.py:175-187.  The
formatted file-size string and the ISO timestamp are not modelled (no
claim depends on them). -/
structure ConvResult where
  markdown : String
  filename : String
  pageCount : Nat
  success : Bool
  aiEnhanced : Bool
  processingMethod : String
  vlmProvider : Option String
  formattingProvider : Option String
  promptTemplatesUsed : List String
  deriving Repr, DecidableEq

/-- What one run of `convert_pdf` leaves behind: the ordered progress
publications, the durable record (when one exists) and the returned
result or re-raised exception. -/
structure PipelineOutcome where
  trace : List ProgressEvent
  record : Option Record
  result : CallOutcome ConvResult

/-- Steps 6-9 of `convert_pdf` (conversion_pipeline.py:154-206): output
naming, result assembly, the completed database update and the final
progress publications. -/
def finishPipeline (env : Env) (totalPages : Nat)
    (trPrefix : List ProgressEvent) (rec : Option Record) (md : String)
    (usedVlm : Bool) : PipelineOutcome :=
  let outName := computeOutputFilename env.outputPattern env.today env.filename
  let res : ConvResult :=
    { markdown := md,
      filename := env.filename,
      pageCount := totalPages,
      success := true,
      aiEnhanced := usedVlm || pyTruthy env.formattingProviderId,
      processingMethod := if usedVlm then "vlm" else "traditional",
      vlmProvider := if usedVlm then env.vlmProviderId else none,
      formattingProvider :=
        if ¬ usedVlm && pyTruthy env.formattingProviderId then
          env.formattingProviderId else none,
      promptTemplatesUsed :=
        [(if usedVlm then "vlm_" else "formatting_") ++
          determineDocumentType env.filename] }
  let rec2 := dbUpdateStatus env.dbOk rec .completed none (some outName)
  { trace := trPrefix ++
      [{ progress := 90, stage := "Finalizing output..." },
       { progress := 95, stage := "Conversion complete!",
         status := some "completed" },
       { progress := 100, stage := "Pipeline complete!" }],
    record := rec2,
    result := .returns res }

/-- `ConversionPipeline.convert_pdf` (conversion_pipeline.py:57-227).
An exception from `pymupdf.open` happens before the record is created
(the failed-status update then matches no row); after record creation
the only operation whose exception is not internally recovered is the
baseline extraction `pymupdf4llm.to_markdown` — the VLM pass and the AI
enhancement pass catch all of their own exceptions, and database write
failures are caught and logged. -/
def convertPdf (env : Env) : PipelineOutcome :=
  match env.openDoc with
  | .raises msg =>
    { trace := [errorEvent msg], record := none, result := .raises msg }
  | .returns totalPages =>
    let rec0 : Option Record :=
      if env.createOk then some { status := .queued } else none
    let ev5 : ProgressEvent :=
      { progress := 5, stage := "Initializing conversion..." }
    let rec1 := dbUpdateStatus env.dbOk rec0 .processing none none
    let vlmOut := processWithVlm env totalPages
    if pyTruthy vlmOut.1 then
      finishPipeline env totalPages
        (ev5 :: vlmOut.2 ++
          [{ progress := 85, stage := "VLM processing complete" }])
        rec1 (vlmOut.1.getD "") true
    else
      let ev10 : ProgressEvent :=
        { progress := 10, stage := "Extracting text from PDF..." }
      match env.toMarkdown with
      | .raises msg =>
        let rec2 := dbUpdateStatus env.dbOk rec1 .failed (some msg) none
        { trace := ev5 :: vlmOut.2 ++ [ev10, errorEvent msg],
          record := rec2,
          result := .raises msg }
      | .returns base =>
        let ev40 : ProgressEvent :=
          { progress := 40, stage := "Basic text extraction complete" }
        let enh := aiEnhancementStep env base
        finishPipeline env totalPages
          (ev5 :: vlmOut.2 ++ [ev10, ev40] ++ enh.2)
          rec1 enh.1 false

/-- Convenience projection: the returned result, if the attempt did not
re-raise. -/
def resultOf (po : PipelineOutcome) : Option ConvResult :=
  match po.result with
  | .returns r => some r
  | .raises _ => none

/-- The percentages of the published progress entries, in publication
order. -/
def progressList (po : PipelineOutcome) : List Nat :=
  po.trace.map ProgressEvent.progress

/-! ## Retry (conversion_pipeline.py:376-409, app.py:403-457) -/

/-- How a retry request ends: record missing (404 / `ValueError`),
rejected by the route's `is_retryable` gate (HTTP 400), rejected by the
pipeline's ceiling check (`ValueError('Maximum retries ... exceeded')`),
or initiated. -/
inductive RetryOutcome where
  | notFound | rejected | limitExceeded | initiated
  deriving Repr, DecidableEq

/-- `ConversionPipeline.retry_conversion` (conversion_pipeline.py:376-409):
fetch the record, reject when `retry_count >= max_retries`
(`app_settings.max_retries`, default 3), otherwise sleep the backoff,
increment the retry count and set the status to `processing`.  Database
writes are taken to succeed here; the backoff sleep has no observable
effect on the record. -/
def pipelineRetryConversion (record : Option Record) (maxRetries : Nat) :
    Option Record × RetryOutcome :=
  match record with
  | none => (none, .notFound)
  | some r =>
    if r.retryCount ≥ maxRetries then (some r, .limitExceeded)
    else
      (some { dbIncrementRetry r with status := .processing }, .initiated)

/-- `ConversionRecord.is_retryable` (models.py:89-92). -/
def isRetryable (r : Record) (maxRetries : Nat) : Bool :=
  r.status == .failed && decide (r.retryCount < maxRetries)

/-- The retry HTTP endpoint `retry_conversion` (app.py:403-457): fetch
the record, reject with HTTP 400 unless `is_retryable` (checked against
`app_settings.global_retry_attempts`, default 3), then increment the
retry count, set the status to `retrying` (passing `error_message=None`,
which leaves the stored message untouched), and invoke the pipeline's
`retry_conversion`, which re-fetches the already-incremented record.  An
exception from the pipeline call is caught and the endpoint still
responds successfully ("basic mode"). -/
def routeRetryConversion (record : Option Record)
    (routeMaxRetries pipelineMaxRetries : Nat) :
    Option Record × RetryOutcome :=
  match record with
  | none => (none, .notFound)
  | some r =>
    if ¬ isRetryable r routeMaxRetries then (some r, .rejected)
    else
      let r2 : Record := { dbIncrementRetry r with status := .retrying }
      match pipelineRetryConversion (some r2) pipelineMaxRetries with
      | (rec, .initiated) => (rec, .initiated)
      | (rec, _) => (rec, .initiated)

/-- Executable check that a list of percentages is monotonically
non-decreasing (the progress-bar contract). -/
def nondecreasing : List Nat → Bool
  | [] => true
  | [_] => true
  | a :: b :: rest => decide (a ≤ b) && nondecreasing (b :: rest)

/-- An attempt with a VLM provider configured whose VLM pass yields no
pages (the capability guard rejects the string-typed check before any
page is processed) and whose baseline extraction then raises: the
terminal error publication carries progress 0. -/
def c1Env : Env :=
  { openDoc := .returns 1, fileSize := 2048, createOk := true, dbOk := true,
    vlmProviderId := some "claude_vlm", formattingProviderId := none,
    getService := fun _ => none,
    toMarkdown := .raises "boom",
    outputPattern := "YYYY-MM-DD-[OriginalFileName].md",
    today := "2024-03-05", filename := "report.pdf" }

/-- An attempt whose baseline extraction raises an exception that
stringifies to the empty string (Python `raise Exception()`), after the
record was created. -/
def c3Env : Env :=
  { openDoc := .returns 2, fileSize := 512, createOk := true, dbOk := true,
    vlmProviderId := none, formattingProviderId := none,
    getService := fun _ => none,
    toMarkdown := .raises "",
    outputPattern := "YYYY-MM-DD-[OriginalFileName].md",
    today := "2024-03-05", filename := "notes.pdf" }

/-- An attempt whose baseline extraction raises with a non-empty
message. -/
def c3wEnv : Env :=
  { c3Env with toMarkdown := .raises "document is encrypted" }

/-- A formatting provider whose `format_markdown` call raises. -/
def c4Svc : RuntimeService :=
  { available := true, caps := [Capability.formatting],
    formatOutcome := .raises "provider connection reset",
    vlmPage := fun _ => .raises "unused" }

/-- A traditional-path attempt with the raising formatting provider
configured and available. -/
def c4Env : Env :=
  { openDoc := .returns 2, fileSize := 1024, createOk := true, dbOk := true,
    vlmProviderId := none, formattingProviderId := some "fmt",
    getService := fun pid => if pid = "fmt" then some c4Svc else none,
    toMarkdown := .returns "# BASE MD",
    outputPattern := "YYYY-MM-DD-[OriginalFileName].md",
    today := "2024-03-05", filename := "memo.pdf" }

/-- A provider declaring the `VLM_DIRECT` capability, available, whose
per-page VLM calls succeed on pages 1 and 3 and raise on page 2. -/
def c5Svc : RuntimeService :=
  { available := true,
    caps := [Capability.htr, Capability.formatting, Capability.vlmDirect],
    formatOutcome := .raises "unused",
    vlmPage := fun i =>
      if i = 1 then .raises "page 2 VLM call failed"
      else .returns ("Page " ++ toString (i + 1) ++ " markdown") }

/-- A 3-page attempt with the VLM provider configured and registered. -/
def c5Env : Env :=
  { openDoc := .returns 3, fileSize := 4096, createOk := true, dbOk := true,
    vlmProviderId := some "claude_vlm", formattingProviderId := none,
    getService := fun pid => if pid = "claude_vlm" then some c5Svc else none,
    toMarkdown := .returns "BASELINE EXTRACTION",
    outputPattern := "YYYY-MM-DD-[OriginalFileName].md",
    today := "2024-03-05", filename := "scan001.pdf" }

/-- A plain successful attempt with no providers configured. -/
def c8Env : Env :=
  { openDoc := .returns 4, fileSize := 8192, createOk := true, dbOk := true,
    vlmProviderId := none, formattingProviderId := none,
    getService := fun _ => none,
    toMarkdown := .returns "# Document",
    outputPattern := "YYYY-MM-DD-[OriginalFileName].md",
    today := "2024-03-05", filename := "report.pdf" }

/-- A formatting provider that is registered but reports unavailable. -/
def c10Svc : RuntimeService :=
  { available := false, caps := [Capability.formatting],
    formatOutcome := .raises "unused",
    vlmPage := fun _ => .raises "unused" }

/-- A traditional-path attempt whose configured formatting provider is
unavailable, so enhancement is skipped. -/
def c10Env : Env :=
  { openDoc := .returns 2, fileSize := 1024, createOk := true, dbOk := true,
    vlmProviderId := none, formattingProviderId := some "fmt",
    getService := fun pid => if pid = "fmt" then some c10Svc else none,
    toMarkdown := .returns "# RAW",
    outputPattern := "YYYY-MM-DD-[OriginalFileName].md",
    today := "2024-03-05", filename := "paper.pdf" }

/-- A disabled `mock` provider with a declared HTR capability: the
configuration is valid, so registration succeeds, yet the provider does
not appear in the `htr` capability list, because
`get_services_by_capability` keeps enabled services only. -/
def c6DisabledConfig : ServiceConfig :=
  { typeName := "mock", displayName := "Disabled Mock", isHtrCapable := true,
    enabled := false }

/-- A template store holding one custom template with two placeholders,
of which only `a` is bound by the call. -/
def c7Store : TemplateStore :=
  [("custom_t", [Seg.lit "A=", Seg.var "a", Seg.lit " B=", Seg.var "b"])]

/-! ## Supporting lemmas -/

/-- If `old` does not occur in `s`, the replacement worker leaves `s`
unchanged, whatever the fuel. -/
theorem replaceAllAux_of_not_occursIn (old new : List Char) :
    ∀ (fuel : Nat) (s : List Char), occursIn old s = false →
      replaceAllAux old new fuel s = s := by
  intro fuel
  induction fuel with
  | zero => intro s _; rfl
  | succ n ih =>
    intro s hocc
    cases s with
    | nil => rfl
    | cons c cs =>
      rw [occursIn] at hocc
      have hpre : old.isPrefixOf (c :: cs) = false := by
        cases hp : old.isPrefixOf (c :: cs) with
        | true => rw [hp] at hocc; simp at hocc
        | false => rfl
      have htail : occursIn old cs = false := by
        cases ht : occursIn old cs with
        | true => rw [ht] at hocc; simp at hocc
        | false => rfl
      show (if old ≠ [] ∧ old.isPrefixOf (c :: cs) then
          new ++ replaceAllAux old new n ((c :: cs).drop old.length)
        else c :: replaceAllAux old new n cs) = c :: cs
      rw [if_neg]
      · rw [ih cs htail]
      · intro hcontra
        rw [hpre] at hcontra
        exact Bool.noConfusion hcontra.2

/-- If `old` does not occur in `s`, replacement leaves `s` unchanged. -/
theorem replaceAll_of_not_occursIn (old new : List Char) (s : List Char)
    (h : occursIn old s = false) : replaceAll s old new = s :=
  replaceAllAux_of_not_occursIn old new s.length s h


/-- The capability guard of `_process_with_vlm` passes the plain string
`'vlm_direct'` to `supports_capability`, which compares it against enum
members and always fails; so the VLM pass never publishes progress and
never produces markdown, for every environment and page count. -/
theorem processWithVlm_disabled (env : Env) (n : Nat) :
    processWithVlm env n = (none, []) := by
  unfold processWithVlm
  cases env.vlmProviderId with
  | none => rfl
  | some pid =>
    cases hsvc : env.getService pid with
    | none => simp [hsvc]
    | some svc => simp [hsvc, capabilityMem]

/-- The AI enhancement step publishes one of three fixed progress
shapes, depending on which degrade branch is taken. -/
theorem aiEnhancementStep_progress (env : Env) (base : String) :
    ((aiEnhancementStep env base).2.map ProgressEvent.progress = [85]) ∨
    ((aiEnhancementStep env base).2.map ProgressEvent.progress = [50, 85]) ∨
    ((aiEnhancementStep env base).2.map ProgressEvent.progress = [50, 70, 85]) := by
  rcases hfid : env.formattingProviderId with _ | fid
  · left; simp [aiEnhancementStep, hfid]
  · by_cases h : fid == ""
    · left; simp [aiEnhancementStep, hfid, h]
    · rcases hsvc : env.getService fid with _ | svc
      · right; left; simp [aiEnhancementStep, hfid, h, hsvc]
      · by_cases ha : svc.available = true
        · rcases he : enhanceMarkdownWithAi svc with _ | e
          · right; right; simp [aiEnhancementStep, hfid, h, hsvc, ha, he]
          · right; right; simp [aiEnhancementStep, hfid, h, hsvc, ha, he]
        · right; left; simp [aiEnhancementStep, hfid, h, hsvc, ha]

/-- The result returned by any attempt whose document opens and whose
baseline extraction succeeds: always the traditional path (the VLM pass
is dead code), with the enhancement step's markdown. -/
theorem convertPdf_result_traditional (env : Env) (n : Nat) (base : String)
    (hOpen : env.openDoc = CallOutcome.returns n)
    (hMd : env.toMarkdown = CallOutcome.returns base) :
    (convertPdf env).result = CallOutcome.returns
      { markdown := (aiEnhancementStep env base).1,
        filename := env.filename,
        pageCount := n,
        success := true,
        aiEnhanced := pyTruthy env.formattingProviderId,
        processingMethod := "traditional",
        vlmProvider := none,
        formattingProvider :=
          if pyTruthy env.formattingProviderId then env.formattingProviderId
          else none,
        promptTemplatesUsed :=
          ["formatting_" ++ determineDocumentType env.filename] } := by
  have hv := processWithVlm_disabled env n
  simp [convertPdf, hOpen, hv, hMd, pyTruthy, finishPipeline]

/-! ## Claims -/

/-- Counterexample to claim C1 as stated: on the attempt where a VLM
provider is configured, the VLM pass yields no pages, the orchestrator
falls back to traditional extraction and a top-level exception then
publishes the terminal error entry, the published percentages are
5, 10, 0 — the terminal error entry resets progress to 0, so the
sequence is not monotonically non-decreasing through the terminal
entry. -/
theorem C1_counterexample :
    progressList (convertPdf c1Env) = [5, 10, 0] ∧
    nondecreasing (progressList (convertPdf c1Env)) = false := by
  decide

/-- Claim C1 (amended): within one attempt the published percentages are
monotonically non-decreasing through the terminal entry whenever the
attempt ends in a returned result; when the attempt ends in a re-raised
exception, all publications before the terminal error entry are
non-decreasing and the terminal error entry itself carries progress 0
(a decrease). -/
theorem C1_progress_amended (env : Env) :
    (∀ r, (convertPdf env).result = CallOutcome.returns r →
      nondecreasing (progressList (convertPdf env)) = true) ∧
    (∀ m, (convertPdf env).result = CallOutcome.raises m →
      nondecreasing (progressList (convertPdf env)).dropLast = true ∧
      (progressList (convertPdf env)).getLast? = some 0) := by
  cases hOpen : env.openDoc with
  | raises msg =>
    refine ⟨?_, ?_⟩
    · intro r hr
      simp [convertPdf, hOpen] at hr
    · intro m hm
      refine ⟨?_, ?_⟩ <;>
        simp [convertPdf, hOpen, progressList, errorEvent, nondecreasing]
  | returns n =>
    have hv : processWithVlm env n = (none, []) := processWithVlm_disabled env n
    cases hMd : env.toMarkdown with
    | raises msg =>
      refine ⟨?_, ?_⟩
      · intro r hr
        simp [convertPdf, hOpen, hv, hMd, pyTruthy] at hr
      · intro m hm
        refine ⟨?_, ?_⟩ <;>
          simp [convertPdf, hOpen, hv, hMd, pyTruthy, progressList, errorEvent,
            nondecreasing]
    | returns base =>
      refine ⟨?_, ?_⟩
      · intro r hr
        rcases aiEnhancementStep_progress env base with h | h | h <;>
          simp [convertPdf, hOpen, hv, hMd, pyTruthy, progressList,
            finishPipeline, List.map_append, h, nondecreasing]
      · intro m hm
        simp [convertPdf, hOpen, hv, hMd, pyTruthy, finishPipeline] at hm

/-- Witness for C1 (amended) on the attempt re-raising `boom`: the
pre-terminal publications are non-decreasing and the terminal entry
carries 0. -/
theorem C1_progress_amended_witness :
    nondecreasing (progressList (convertPdf c1Env)).dropLast = true ∧
    (progressList (convertPdf c1Env)).getLast? = some 0 :=
  (C1_progress_amended c1Env).2 "boom" (by decide)

/-- Counterexample to claim C3 as stated: an exception raised after
record creation whose Python stringification is empty (for example
`raise Exception()`) is re-raised and recorded, but the terminal error
progress entry carries the empty error string — not a non-empty one. -/
theorem C3_counterexample :
    (convertPdf c3Env).result = CallOutcome.raises "" ∧
    ((convertPdf c3Env).trace.getLast?).bind ProgressEvent.error = some "" := by
  decide

/-- Claim C3 (amended): for every attempt in which an exception is
raised after record creation and not internally recovered (with the
durable write itself succeeding), the record is updated to `failed`
carrying the stringified error, a terminal error progress entry carrying
exactly that string is published, and the same exception is re-raised;
the published error string is non-empty whenever the exception's
stringification is non-empty. -/
theorem C3_failure_semantics_amended (env : Env) (n : Nat) (msg : String)
    (hOpen : env.openDoc = CallOutcome.returns n)
    (hMd : env.toMarkdown = CallOutcome.raises msg)
    (hCreate : env.createOk = true) (hDb : env.dbOk = true) :
    (convertPdf env).result = CallOutcome.raises msg ∧
    (convertPdf env).record = some
      { status := RecStatus.failed, outputFilename := none,
        errorMessage := some msg, retryCount := 0 } ∧
    (convertPdf env).trace.getLast? = some (errorEvent msg) ∧
    ((convertPdf env).trace.getLast?).bind ProgressEvent.error = some msg ∧
    (msg ≠ "" →
      ((convertPdf env).trace.getLast?).bind ProgressEvent.error ≠ some "") := by
  have hv := processWithVlm_disabled env n
  refine ⟨?_, ?_, ?_, ?_, ?_⟩ <;>
    simp [convertPdf, hOpen, hv, hMd, hCreate, hDb, pyTruthy, dbUpdateStatus,
      errorEvent, List.getLast?]

/-- Witness for C3 (amended) on an attempt raising a non-empty
message. -/
theorem C3_failure_semantics_amended_witness :
    (convertPdf c3wEnv).result = CallOutcome.raises "document is encrypted" ∧
    ((convertPdf c3wEnv).trace.getLast?).bind ProgressEvent.error ≠ some "" :=
  ⟨(C3_failure_semantics_amended c3wEnv 2 "document is encrypted"
      rfl rfl rfl rfl).1,
   (C3_failure_semantics_amended c3wEnv 2 "document is encrypted"
      rfl rfl rfl rfl).2.2.2.2 (by decide)⟩

/-- Claim C4: on the traditional path with a formatting provider
configured and available, if the provider's formatting call raises or
returns empty/whitespace-only content, the final markdown equals the
baseline-extraction markdown exactly and the conversion still returns a
successful result. -/
theorem C4_formatting_degrade (env : Env) (n : Nat) (base fid : String)
    (svc : RuntimeService)
    (hOpen : env.openDoc = CallOutcome.returns n)
    (hMd : env.toMarkdown = CallOutcome.returns base)
    (hFid : env.formattingProviderId = some fid) (hfidNe : fid ≠ "")
    (hSvc : env.getService fid = some svc) (hAvail : svc.available = true)
    (hFail : (∃ m, svc.formatOutcome = CallOutcome.raises m) ∨
      (∃ s, svc.formatOutcome = CallOutcome.returns s ∧ pyStrip s = "")) :
    ∃ r, (convertPdf env).result = CallOutcome.returns r ∧
      r.markdown = base ∧ r.success = true := by
  have henh : enhanceMarkdownWithAi svc = none := by
    rcases hFail with ⟨m, hm⟩ | ⟨s, hs, hstrip⟩
    · simp [enhanceMarkdownWithAi, hm]
    · simp [enhanceMarkdownWithAi, hs, hstrip]
  have hfidb : (fid == "") = false := by
    simp [hfidNe]
  have hstep : (aiEnhancementStep env base).1 = base := by
    simp [aiEnhancementStep, hFid, hfidb, hSvc, hAvail, henh]
  exact ⟨_, convertPdf_result_traditional env n base hOpen hMd, hstep, rfl⟩

/-- Witness for C4 on an attempt whose formatting provider raises. -/
theorem C4_formatting_degrade_witness :
    ∃ r, (convertPdf c4Env).result = CallOutcome.returns r ∧
      r.markdown = "# BASE MD" ∧ r.success = true :=
  C4_formatting_degrade c4Env 2 "# BASE MD" "fmt" c4Svc rfl rfl rfl
    (by decide) rfl rfl
    (Or.inl ⟨"provider connection reset", rfl⟩)

/-- Claim C5 (code bug evidence): with a VLM provider configured,
registered, available and declaring the `VLM_DIRECT` capability, and a
3-page document whose page-2 VLM call would raise while pages 1 and 3
would succeed, the conversion nevertheless takes the traditional path
and returns the baseline extraction — not the two successful page
outputs joined by the page separator — because the capability guard at
conversion_pipeline.py:301 passes the string `'vlm_direct'` to
`supports_capability`, which compares it against enum members and always
returns `False`. -/
theorem C5_vlm_path_dead_eval :
    (resultOf (convertPdf c5Env)).map ConvResult.processingMethod
        = some "traditional" ∧
    (resultOf (convertPdf c5Env)).map ConvResult.markdown
        = some "BASELINE EXTRACTION" ∧
    capabilityMem (.str "vlm_direct") c5Svc.caps = false ∧
    c5Svc.caps.contains Capability.vlmDirect = true ∧
    some "BASELINE EXTRACTION"
        ≠ some ("Page 1 markdown" ++ "\n\n---\n\n" ++ "Page 3 markdown") := by
  decide

/-- Claim C8: every attempt driven to a terminal state by the
orchestrator (the document opened, the record was created and the
durable writes succeed) leaves the record in exactly one of
`completed`/`failed`, and `output_filename` is non-null if and only if
the status is `completed`. -/
theorem C8_terminal_record (env : Env) (n : Nat)
    (hOpen : env.openDoc = CallOutcome.returns n)
    (hCreate : env.createOk = true) (hDb : env.dbOk = true) :
    ∃ r, (convertPdf env).record = some r ∧
      ((r.status = RecStatus.completed ∧ r.status ≠ RecStatus.failed) ∨
       (r.status = RecStatus.failed ∧ r.status ≠ RecStatus.completed)) ∧
      (r.outputFilename.isSome = true ↔ r.status = RecStatus.completed) := by
  have hv := processWithVlm_disabled env n
  cases hMd : env.toMarkdown with
  | raises msg =>
    refine ⟨{ status := RecStatus.failed, outputFilename := none,
              errorMessage := some msg, retryCount := 0 }, ?_, ?_, ?_⟩
    · simp [convertPdf, hOpen, hv, hMd, pyTruthy, hCreate, hDb, dbUpdateStatus]
    · right; exact ⟨rfl, by simp⟩
    · simp
  | returns base =>
    refine ⟨{ status := RecStatus.completed,
              outputFilename :=
                some (computeOutputFilename env.outputPattern env.today
                  env.filename),
              errorMessage := none, retryCount := 0 }, ?_, ?_, ?_⟩
    · simp [convertPdf, hOpen, hv, hMd, pyTruthy, hCreate, hDb, dbUpdateStatus,
        finishPipeline]
    · left; exact ⟨rfl, by simp⟩
    · simp

/-- Witness for C8 on a plain successful attempt. -/
theorem C8_terminal_record_witness :
    ∃ r, (convertPdf c8Env).record = some r ∧
      ((r.status = RecStatus.completed ∧ r.status ≠ RecStatus.failed) ∨
       (r.status = RecStatus.failed ∧ r.status ≠ RecStatus.completed)) ∧
      (r.outputFilename.isSome = true ↔ r.status = RecStatus.completed) :=
  C8_terminal_record c8Env 4 rfl rfl rfl

/-- Claim C10: on the traditional path with a formatting provider id
configured, the result's `ai_enhanced` field is true even when the AI
enhancement was skipped or failed and the final markdown equals the
baseline extraction — the flag reflects configuration, not whether
enhancement changed the output. -/
theorem C10_ai_enhanced_flag (env : Env) (n : Nat) (base fid : String)
    (hOpen : env.openDoc = CallOutcome.returns n)
    (hMd : env.toMarkdown = CallOutcome.returns base)
    (hFid : env.formattingProviderId = some fid) (hfidNe : fid ≠ "")
    (hDeg : env.getService fid = none ∨
      ∃ svc, env.getService fid = some svc ∧
        (svc.available = false ∨ enhanceMarkdownWithAi svc = none)) :
    ∃ r, (convertPdf env).result = CallOutcome.returns r ∧
      r.aiEnhanced = true ∧ r.markdown = base := by
  have hfidb : (fid == "") = false := by simp [hfidNe]
  have hstep : (aiEnhancementStep env base).1 = base := by
    rcases hDeg with hnone | ⟨svc, hsvc, hcase⟩
    · simp [aiEnhancementStep, hFid, hfidb, hnone]
    · rcases hcase with hav | henh
      · simp [aiEnhancementStep, hFid, hfidb, hsvc, hav]
      · by_cases ha : svc.available = true
        · simp [aiEnhancementStep, hFid, hfidb, hsvc, ha, henh]
        · simp [aiEnhancementStep, hFid, hfidb, hsvc, ha]
  refine ⟨_, convertPdf_result_traditional env n base hOpen hMd, ?_, hstep⟩
  show pyTruthy env.formattingProviderId = true
  simp [hFid, pyTruthy, hfidNe]

/-- Witness for C10 on an attempt whose configured formatting provider
is unavailable. -/
theorem C10_ai_enhanced_flag_witness :
    ∃ r, (convertPdf c10Env).result = CallOutcome.returns r ∧
      r.aiEnhanced = true ∧ r.markdown = "# RAW" :=
  C10_ai_enhanced_flag c10Env 2 "# RAW" "fmt" rfl rfl rfl (by decide)
    (Or.inr ⟨c10Svc, rfl, Or.inl rfl⟩)

/-- Claim C9: the output name is the pattern with the literal token
`YYYY-MM-DD` replaced by the current date and the literal token
`[OriginalFileName]` replaced by the filename without its extension, all
other text passing through unchanged — in particular the pattern
`YYYY-MM-DD-[OriginalFileName].md` with filename `report.pdf` on date
2024-03-05 yields `2024-03-05-report.md`, and a pattern containing
neither token is returned verbatim. -/
theorem C9_output_naming (pattern today filename : String)
    (hd : occursIn dateToken pattern.data = false)
    (hf : occursIn fileToken pattern.data = false) :
    computeOutputFilename "YYYY-MM-DD-[OriginalFileName].md" "2024-03-05"
        "report.pdf" = "2024-03-05-report.md" ∧
    computeOutputFilename pattern today filename = pattern := by
  constructor
  · decide
  · unfold computeOutputFilename
    rw [replaceAll_of_not_occursIn _ _ _ hd,
        replaceAll_of_not_occursIn _ _ _ hf]

/-- Witness for C9 at a concrete token-free pattern. -/
theorem C9_output_naming_witness :
    computeOutputFilename "YYYY-MM-DD-[OriginalFileName].md" "2024-03-05"
        "report.pdf" = "2024-03-05-report.md" ∧
    computeOutputFilename "plain-output.md" "2024-03-05" "report.pdf"
        = "plain-output.md" :=
  C9_output_naming "plain-output.md" "2024-03-05" "report.pdf"
    (by decide) (by decide)

/-- Claim C2 (code bug evidence): evaluating the retry HTTP endpoint with
the shipped configuration ceilings (`global_retry_attempts = 2` for the
route, the absent `app_settings.max_retries` defaulting to 3 for the
pipeline).  A record at the route ceiling is rejected with the count
unchanged, as the claim states; but a failed record with
`retry_count = 0` — which the claim says gains exactly 1 — ends with
`retry_count = 2` and status `processing`, because both the route
(app.py:422) and the pipeline it then invokes
(conversion_pipeline.py:396) increment the count. -/
theorem C2_retry_route_eval :
    routeRetryConversion
        (some { status := .failed, outputFilename := none,
                errorMessage := some "x", retryCount := 2 }) 2 3
      = (some { status := .failed, outputFilename := none,
                errorMessage := some "x", retryCount := 2 }, .rejected) ∧
    routeRetryConversion
        (some { status := .failed, outputFilename := none,
                errorMessage := some "x", retryCount := 0 }) 2 3
      = (some { status := .processing, outputFilename := none,
                errorMessage := some "x", retryCount := 2 }, .initiated) := by
  decide

/-- A successfully created service carries the provider id, the enabled
flag and the configuration it was built from. -/
theorem createServiceFromConfig_fields (pid : String) (c : ServiceConfig)
    (svc : Service) (h : createServiceFromConfig pid c = .returns svc) :
    svc.providerId = pid ∧ svc.enabled = c.enabled ∧ svc.cfg = c := by
  unfold createServiceFromConfig at h
  split at h
  · exact absurd h (by simp)
  · split at h
    · cases h
      exact ⟨rfl, rfl, rfl⟩
    · exact absurd h (by simp)

/-- A value stored by Python dict assignment is among the dictionary's
values. -/
theorem dictInsert_mem_values (k : String) (v : Service)
    (d : List (String × Service)) :
    v ∈ (dictInsert k v d).map Prod.snd := by
  unfold dictInsert
  by_cases h : d.any (fun p => p.1 == k)
  · rw [if_pos h]
    obtain ⟨p, hp, hpk⟩ := List.any_eq_true.mp h
    rw [List.map_map]
    refine List.mem_map.mpr ⟨p, hp, ?_⟩
    simp only [Function.comp_apply, hpk, if_pos]
  · rw [if_neg h, List.map_append]
    exact List.mem_append_right _ (by simp)

/-- Counterexample to claim C6 as stated: registering the disabled mock
provider succeeds (returns true), the configuration declares the HTR
capability, and yet the provider appears in no capability list. -/
theorem C6_counterexample :
    (registerService ⟨[]⟩ "mock_htr" c6DisabledConfig).2 = true ∧
    Capability.htr ∈ c6DisabledConfig.declaredCaps ∧
    appearsByCapability (registerService ⟨[]⟩ "mock_htr" c6DisabledConfig).1
        "mock_htr" Capability.htr = false ∧
    appearsByCapability (registerService ⟨[]⟩ "mock_htr" c6DisabledConfig).1
        "mock_htr" Capability.formatting = false := by
  decide

/-- A registration call that returns `true` stored the freshly created
service under the provider id. -/
theorem registerService_true_inv (f : Factory) (pid : String)
    (c : ServiceConfig) (g : Factory)
    (h : registerService f pid c = (g, true)) :
    ∃ svc, createServiceFromConfig pid c = .returns svc ∧
      svc.providerId = pid ∧ svc.enabled = c.enabled ∧ svc.cfg = c ∧
      g = ⟨dictInsert pid svc f.services⟩ := by
  unfold registerService at h
  split at h
  · simp at h
  · split at h
    · simp at h
    · rename_i svc hsvc
      split at h
      · simp at h
      · obtain ⟨h1, h2, h3⟩ := createServiceFromConfig_fields pid c svc hsvc
        exact ⟨svc, hsvc, h1, h2, h3, (congrArg Prod.fst h).symm⟩

/-- A registration call that returns `false` leaves the registry
unchanged. -/
theorem registerService_false_inv (f : Factory) (pid : String)
    (c : ServiceConfig) (g : Factory)
    (h : registerService f pid c = (g, false)) : g = f := by
  unfold registerService at h
  split at h
  · exact (congrArg Prod.fst h).symm
  · split at h
    · exact (congrArg Prod.fst h).symm
    · split at h
      · exact (congrArg Prod.fst h).symm
      · simp at h

/-- Claim C6 (amended): `register` either succeeds — and then, provided
the configuration is enabled, the provider appears in `byCapability` for
every capability it declares (`byCapability` filters disabled providers
out, so a disabled provider appears in no list despite successful
registration) — or fails returning false and leaves the registry
unchanged, so a previously unregistered provider appears in no
capability list. -/
theorem C6_register_amended (f : Factory) (pid : String) (c : ServiceConfig) :
    ((registerService f pid c).2 = true → c.enabled = true →
      ∀ cap ∈ c.declaredCaps,
        appearsByCapability (registerService f pid c).1 pid cap = true) ∧
    ((registerService f pid c).2 = false → (registerService f pid c).1 = f) := by
  constructor
  · intro hok hen cap hcap
    have h : registerService f pid c = ((registerService f pid c).1, true) := by
      rw [← hok]
    obtain ⟨svc, hsvc, hpid, henf, hcfg, hg⟩ :=
      registerService_true_inv f pid c _ h
    rw [hg]
    simp only [appearsByCapability, getServicesByCapability]
    rw [List.any_eq_true]
    refine ⟨svc,
      List.mem_filter.mpr ⟨dictInsert_mem_values pid svc f.services, ?_⟩, ?_⟩
    · rw [Bool.and_eq_true]
      constructor
      · simp only [Service.supportsCapabilityArg, capabilityMem,
          Service.capabilities, hcfg]
        simpa using hcap
      · rw [henf, hen]
    · rw [hpid]
      simp
  · intro hfail
    have h : registerService f pid c = ((registerService f pid c).1, false) := by
      rw [← hfail]
    exact registerService_false_inv f pid c _ h

/-- The fallback prompt never raises: the only formatted default
(`formatting_clean`) has `content` as its single placeholder and the
fallback always binds it. -/
theorem getFallbackPrompt_returns (name : String)
    (vars : List (String × String)) :
    ∃ s, getFallbackPrompt name vars = .returns s := by
  unfold getFallbackPrompt
  split
  · exact ⟨_, rfl⟩
  · split
    · exact ⟨_, rfl⟩
    · split
      · exact ⟨_, rfl⟩
      · exact ⟨_, rfl⟩

/-- Counterexample to claim C7 as stated: rendering the present template
with `a` bound and `b` missing does not substitute the resolvable
placeholder `a` — the whole content comes back verbatim (Python
`str.format` raises `KeyError` before substituting anything, and
`PromptTemplate.format` then returns `self.content` unchanged). -/
theorem C7_counterexample :
    getPrompt c7Store "custom_t" [("a", "1")]
        = .returns "A=\x7ba\x7d B=\x7bb\x7d" ∧
    "A=\x7ba\x7d B=\x7bb\x7d" ≠ "A=1 B=\x7bb\x7d" := by
  decide

/-- Claim C7 (amended): rendering a prompt never raises; a missing
template name falls back to the category-appropriate default inferred
from the name's prefix; a present template whose placeholders are all
bound renders fully substituted; and a present template with any missing
variable is returned as its verbatim content, with no placeholders
substituted (a warning is logged). -/
theorem C7_prompt_rendering_amended (store : TemplateStore) (name : String)
    (vars : List (String × String)) :
    (∃ s, getPrompt store name vars = .returns s) ∧
    (lookupTemplate store name = none →
      getPrompt store name vars = getFallbackPrompt name vars) ∧
    (∀ t s, lookupTemplate store name = some t →
      pyFormat t vars = .returns s →
      getPrompt store name vars = .returns s) ∧
    (∀ t m, lookupTemplate store name = some t →
      pyFormat t vars = .raises m →
      getPrompt store name vars = .returns (renderRaw t)) := by
  refine ⟨?_, ?_, ?_, ?_⟩
  · cases h : lookupTemplate store name with
    | none =>
      obtain ⟨s, hs⟩ := getFallbackPrompt_returns name vars
      exact ⟨s, by simp [getPrompt, h, hs]⟩
    | some t =>
      exact ⟨templateFormat t vars, by simp [getPrompt, h]⟩
  · intro h
    simp [getPrompt, h]
  · intro t s ht hfmt
    simp [getPrompt, ht, templateFormat, hfmt]
  · intro t m ht hfmt
    simp [getPrompt, ht, templateFormat, hfmt]

/-- Witness for C7 (amended): a missing `htr_`-prefixed name falls back,
as reported by the second conjunct applied at concrete inputs. -/
theorem C7_prompt_rendering_amended_witness :
    getPrompt [] "htr_missing" [] = getFallbackPrompt "htr_missing" [] :=
  (C7_prompt_rendering_amended [] "htr_missing" []).2.1 (by decide)

/-- Witness for C6 (amended) at an enabled mock provider declaring HTR. -/
theorem C6_register_amended_witness :
    appearsByCapability
        (registerService ⟨[]⟩ "mock_ok"
          { typeName := "mock", displayName := "Mock", isHtrCapable := true }).1
        "mock_ok" Capability.htr = true :=
  (C6_register_amended ⟨[]⟩ "mock_ok"
      { typeName := "mock", displayName := "Mock", isHtrCapable := true }).1
    (by decide) (by decide) Capability.htr (by decide)

end Ink2MD
